import Mathlib

/-!
Verification of `generate_adversarial_example.py` (targeted adversarial
attack script).

Shallow embedding conventions:
* Tensors are flattened element lists over `ℚ` (all relevant operations —
  addition, `tf.clip_by_value`, `np.clip`, the `uint8` cast — act
  element-wise, so a flat list is faithful for the claims below).
* External framework collaborators (ResNet50 forward pass, Adam optimizer,
  sparse categorical cross-entropy, `preprocess_input`, autodiff) are
  abstract function fields of a `Framework` record: the claims are about how
  the script composes them, not about their internals.
* Module-level globals of the script (`baseImage`, `epsilon`, the optimizer
  state) live in a `Globals` record, separate from the arguments of
  `generate_target_adversaries`, because the source distinguishes the
  parameter `base_image` from the global `baseImage` it actually reads.
-/

namespace AdvExample

/-- Element-wise tensor addition (`baseImage + delta` etc.). -/
def tensorAdd (a b : List ℚ) : List ℚ := List.zipWith (· + ·) a b

/-- `tf.clip_by_value(x, lo, hi)` / `np.clip(x, lo, hi)` on one element:
the value clamped into `[lo, hi]`. -/
def clipVal (lo hi x : ℚ) : ℚ := min hi (max lo x)

/-- Source `clip_eps(tensor, eps)` (lines 40-42): clip the values of the
input tensor to the range `[-eps, eps]`, element-wise. -/
def clip_eps (tensor : List ℚ) (eps : ℚ) : List ℚ :=
  tensor.map (clipVal (-eps) eps)

/-- The script's module-level `epsilon = 2 / 255.0` (line 107). -/
def epsilon : ℚ := 2 / 255

/-- Adam optimizer internal state (first/second moment estimates and step
counter); its update rule is an abstract `Framework` field. -/
structure AdamState where
  m : List ℚ
  v : List ℚ
  t : ℕ

/-- Abstract interface to the deep-learning framework collaborators used by
the optimization loop. `runModel` takes the model weights, the `training`
flag and the input tensor; `scc` is `SparseCategoricalCrossentropy` applied
as `sccLoss(label, predictions)`; `tapeGrad` stands for
`tape.gradient(totalLoss, delta)`; `adam` is
`optimizer.apply_gradients([(gradients, delta)])`, returning the updated
optimizer state and updated variable. -/
structure Framework where
  preInput : List ℚ → List ℚ
  runModel : List ℚ → Bool → List ℚ → List ℚ
  scc : ℕ → List ℚ → ℚ
  tapeGrad : ℚ → List ℚ → List ℚ
  adam : AdamState → List ℚ → List ℚ → AdamState × List ℚ

/-- Module-level globals captured by `generate_target_adversaries`:
`baseImage` (line 116), `epsilon` (line 107) and the optimizer's state at
entry (`optimizer`, line 112). -/
structure Globals where
  baseImage : List ℚ
  epsilon : ℚ
  adam0 : AdamState

/-- The mutable data threaded through the optimization loop, together with
the read-only tensors the frame claims are about: the base image, the model
weights, the Adam state and the perturbation `delta`. -/
structure LoopState where
  baseImage : List ℚ
  weights : List ℚ
  adamSt : AdamState
  delta : List ℚ

/-- Observable outcome of one loop iteration: the successor state, the
`totalLoss` scalar of that step, whether the step printed the loss, and the
`training` flag the model was invoked with. -/
structure StepOut where
  state : LoopState
  totalLoss : ℚ
  printed : Bool
  trainingMode : Bool

/-- One iteration of the loop body of `generate_target_adversaries`
(source lines 45-69):
`adversary = preprocess_input(baseImage + delta)`;
`predictions = model(adversary, training=False)`;
`originalLoss = -sccLoss([original_class_index], predictions)`;
`targetLoss = sccLoss([target_class_index], predictions)`;
`totalLoss = originalLoss + targetLoss`; print when `step % 10 == 0`;
`gradients = tape.gradient(totalLoss, delta)`;
`optimizer.apply_gradients([(gradients, delta)])`;
`delta.assign_add(clip_eps(delta, eps=epsilon))` — note: the source uses
`assign_add`, so the clipped tensor is ADDED to the perturbation rather
than overwriting it. -/
def stepBody (fw : Framework) (eps : ℚ) (original_class_index target_class_index : ℕ)
    (st : LoopState) (step : ℕ) : StepOut :=
  let adversary := fw.preInput (tensorAdd st.baseImage st.delta)
  let predictions := fw.runModel st.weights false adversary
  let originalLoss := -(fw.scc original_class_index predictions)
  let targetLoss := fw.scc target_class_index predictions
  let totalLoss := originalLoss + targetLoss
  let printed := step % 10 == 0
  let gradients := fw.tapeGrad totalLoss st.delta
  let applied := fw.adam st.adamSt gradients st.delta
  let deltaAfter := tensorAdd applied.2 (clip_eps applied.2 eps)
  { state := { st with adamSt := applied.1, delta := deltaAfter }
    totalLoss := totalLoss
    printed := printed
    trainingMode := false }

/-- Result of running the whole loop: final state, the list of step indices
whose loss was printed (in order), and the number of iterations executed. -/
structure GenOut where
  state : LoopState
  printedSteps : List ℕ
  iterations : ℕ

/-- The loop `for step in range(0, steps)` of `generate_target_adversaries`,
iterating `stepBody` over the given list of step indices. -/
def loopFrom (fw : Framework) (g : Globals) (original_class_index target_class_index : ℕ) :
    List ℕ → LoopState → GenOut
  | [], st => { state := st, printedSteps := [], iterations := 0 }
  | i :: rest, st =>
    let out := stepBody fw g.epsilon original_class_index target_class_index st i
    let r := loopFrom fw g original_class_index target_class_index rest out.state
    { state := r.state
      printedSteps := (if out.printed then [i] else []) ++ r.printedSteps
      iterations := r.iterations + 1 }

/-- Source `generate_target_adversaries(model, base_image, delta,
original_class_index, target_class_index, steps)` (lines 44-71). The body
reads the module-level `baseImage` (line 51), not the `base_image`
parameter, which is therefore dead; `model` is represented by its weights
tensor, applied through `fw.runModel`. -/
def generate_target_adversaries (fw : Framework) (g : Globals)
    (model : List ℚ) (base_image : List ℚ) (delta : List ℚ)
    (original_class_index target_class_index : ℕ) (steps : ℕ) : GenOut :=
  loopFrom fw g original_class_index target_class_index (List.range steps)
    { baseImage := g.baseImage, weights := model, adamSt := g.adam0, delta := delta }

/-- Character-level effect of `label.lower().replace("_", " ")`: lowercase
the character; if the (lowered) character is an underscore, it becomes a
space. (`str.lower` never produces an underscore and both `"_"` and `" "`
are single characters, so the composite string transformation is
character-wise.) -/
def normChar (c : Char) : Char :=
  if c.toLower = '_' then ' ' else c.toLower

/-- `label.lower().replace("_", " ")` from `get_target_class_index`
(line 27), as the character-wise map `normChar`. -/
def pyLowerReplace (s : String) : String := String.mk (s.data.map normChar)

/-- Source `get_target_class_index(label)` (lines 26-31): normalize the
label and look it up in the mapping loaded from `imagenet_index.json`
(modelled as an association list passed in); `dict.get(label, None)`
defaults to `none` when the key is not found. -/
def get_target_class_index (mapping : List (String × ℕ)) (label : String) : Option ℕ :=
  mapping.lookup (pyLowerReplace label)

/-- Boolean test that two characters agree up to letter case or are both
members of the underscore/space pair. -/
def charEquivB (c d : Char) : Bool :=
  (c.toLower == d.toLower) || ((c == '_' || c == ' ') && (d == '_' || d == ' '))

/-- Pointwise lift of `charEquivB` to character lists of equal length. -/
def labelEquivList : List Char → List Char → Bool
  | [], [] => true
  | c :: cs, d :: ds => charEquivB c d && labelEquivList cs ds
  | _, _ => false

/-- Two label strings differ only in letter case and/or in the substitution
of underscores for spaces. -/
def labelEquiv (s t : String) : Prop := labelEquivList s.data t.data = true

/-- Console / file-system / model effects of the `__main__` driver, in
program order. -/
inductive Ev where
  | printErrorTargetMissing
  | exitWith (code : ℕ)
  | loadInputImage (file : String)
  | runPreprocessImage
  | applyPreprocessInput
  | loadResNet50
  | predictOriginal
  | resolveOriginalIndex
  | runOptimizer
  | writeOutputImage
  | reclassifyAdversary
  | showImage
  | loadMobileNetV2
  | predictTransfer
deriving DecidableEq

/-- Effect trace of the `__main__` driver (lines 74-148) as a function of
the label mapping, the target class argument and the input file argument:
resolve the target index first; if it is `None`, print the error and
`sys.exit(0)` (lines 81-84) with nothing else happening; otherwise run the
full linear pipeline. -/
def mainEvents (mapping : List (String × ℕ)) (target_class : String)
    (file_in : String) : List Ev :=
  match get_target_class_index mapping target_class with
  | none => [Ev.printErrorTargetMissing, Ev.exitWith 0]
  | some _ =>
    [Ev.loadInputImage file_in, Ev.runPreprocessImage, Ev.applyPreprocessInput,
     Ev.loadResNet50, Ev.predictOriginal, Ev.resolveOriginalIndex,
     Ev.runOptimizer, Ev.writeOutputImage, Ev.reclassifyAdversary,
     Ev.showImage, Ev.loadMobileNetV2, Ev.predictTransfer]

/-- Channel order of an image buffer. -/
inductive ChannelOrder
  | bgr
  | rgb
deriving DecidableEq

/-- Shape- and layout-level state of an image tensor: channel order, spatial
size, channel count, number of leading batch dimensions, and whether the
classifier's numeric normalization (mean-centering `preprocess_input`) has
been applied to the values. -/
structure ImgState where
  order : ChannelOrder
  height : ℕ
  width : ℕ
  channels : ℕ
  batchDims : ℕ
  normalized : Bool
deriving DecidableEq

/-- `cv2.cvtColor(image, cv2.COLOR_BGR2RGB)` (line 35): permutes the color
channels; shape and values-normalization status are untouched. -/
def cvtColorBGR2RGB (img : ImgState) : ImgState := { img with order := ChannelOrder.rgb }

/-- `cv2.resize(image, (w, h))` (line 36): sets the spatial size. -/
def cvResize (img : ImgState) (w h : ℕ) : ImgState := { img with width := w, height := h }

/-- `np.expand_dims(image, axis=0)` (line 37): prepends one batch
dimension. -/
def expandDims0 (img : ImgState) : ImgState := { img with batchDims := img.batchDims + 1 }

/-- Source `preprocess_image(image)` (lines 33-38): swap color channels
BGR to RGB, resize to 224 x 224, and add in a batch dimension — and nothing
else; in particular it does not apply `preprocess_input`. -/
def preprocess_image (img : ImgState) : ImgState :=
  expandDims0 (cvResize (cvtColorBGR2RGB img) 224 224)

/-- `tensorflow.keras.applications.resnet50.preprocess_input` at the
shape/layout level: applies the classifier's numeric normalization
(mean-centering); the driver calls it separately, after
`preprocess_image` (line 92). -/
def preprocess_input_resnet (img : ImgState) : ImgState := { img with normalized := true }

/-- Tensor shape as a dimension list `(1, ..., height, width, channels)`. -/
def ImgState.shape (img : ImgState) : List ℕ :=
  List.replicate img.batchDims 1 ++ [img.height, img.width, img.channels]

/-- One element of `np.clip(adverImage, 0, 255).astype("uint8")`
(line 124): clamp into `[0, 255]`, then the `uint8` cast truncates toward
zero, which on a nonnegative value is the floor. -/
def persistPixel (x : ℚ) : ℚ := ((⌊clipVal 0 255 x⌋ : ℤ) : ℚ)

/-- `baseImage + deltaUpdated` (lines 123 and 129): the raw floating-point
adversarial tensor. -/
def adverImageRaw (baseImage deltaUpdated : List ℚ) : List ℚ :=
  tensorAdd baseImage deltaUpdated

/-- The value content of the image written to `output.png` (lines 123-126):
each element of `baseImage + deltaUpdated` clipped to `[0, 255]` and cast to
`uint8`. (The subsequent `squeeze` and RGB-to-BGR swap rearrange elements
without changing any value.) -/
def adverImagePersisted (baseImage deltaUpdated : List ℚ) : List ℚ :=
  (adverImageRaw baseImage deltaUpdated).map persistPixel

/-- The tensor the driver feeds back to the classifiers for re-labelling
(lines 129 and 145): `preprocess_input(baseImage + deltaUpdated)`, built
from the raw unclipped sum, not from the persisted image. -/
def reclassifyInput (fw : Framework) (baseImage deltaUpdated : List ℚ) : List ℚ :=
  fw.preInput (adverImageRaw baseImage deltaUpdated)

/-- A concrete instantiation of the framework collaborators exhibiting a
realistic first optimization step: a positive gradient everywhere, and an
Adam update that moves each coordinate of the (initially zero) perturbation
to `lr = 1/100` — the magnitude Adam's bias-corrected first step produces
with learning rate `0.01`. -/
def fwBug : Framework :=
  { preInput := id
    runModel := fun _ _ x => x
    scc := fun _ _ => 0
    tapeGrad := fun _ d => d.map (fun _ => 1)
    adam := fun a _ d => (a, d.map (fun _ => 1/100)) }

/-- Loop state at entry of the first step: zero perturbation, as the driver
initializes it (line 117). -/
def stBug : LoopState :=
  { baseImage := [0], weights := [0]
    adamSt := { m := [0], v := [0], t := 0 }, delta := [0] }

/-- Frame lemma for the loop: no iteration writes the base image or the
model weights. -/
lemma loopFrom_frame (fw : Framework) (g : Globals) (o t : ℕ) :
    ∀ (l : List ℕ) (st : LoopState),
      (loopFrom fw g o t l st).state.baseImage = st.baseImage ∧
      (loopFrom fw g o t l st).state.weights = st.weights := by
  intro l
  induction l with
  | nil => intro st; exact ⟨rfl, rfl⟩
  | cons i rest ih =>
    intro st
    have h := ih (stepBody fw g.epsilon o t st i).state
    exact ⟨h.1, h.2⟩

/-- Counting lemma for the loop: iterating over an index list performs one
iteration per index and prints exactly at the indices divisible by 10. -/
lemma loopFrom_stats (fw : Framework) (g : Globals) (o t : ℕ) :
    ∀ (l : List ℕ) (st : LoopState),
      (loopFrom fw g o t l st).iterations = l.length ∧
      (loopFrom fw g o t l st).printedSteps = l.filter (fun i => i % 10 == 0) := by
  intro l
  induction l with
  | nil => intro st; exact ⟨rfl, rfl⟩
  | cons i rest ih =>
    intro st
    have h := ih (stepBody fw g.epsilon o t st i).state
    constructor
    · show (loopFrom fw g o t rest _).iterations + 1 = rest.length + 1
      rw [h.1]
    · show (if (i % 10 == 0) then [i] else []) ++ (loopFrom fw g o t rest _).printedSteps
        = List.filter (fun i => i % 10 == 0) (i :: rest)
      rw [h.2, List.filter_cons]
      by_cases hc : (i % 10 == 0) = true
      · simp [hc]
      · simp [hc]

/-- Claim C1 (code bug evaluation): after the optimizer update and the
"clipping" line `delta.assign_add(clip_eps(delta, eps=epsilon))` of the
first step, the perturbation does NOT lie within `[-epsilon, epsilon]`:
with the post-update value `1/100` per element, `assign_add` adds the
clipped value `epsilon` on top instead of overwriting, leaving
`1/100 + 2/255 = 91/5100 > epsilon`. The inline comment of the source
(line 67, "clip the perturbation vector, and update its value") and the
spec both call for `delta.assign(clip_eps(delta, epsilon))`. -/
theorem C1_clip_bound_not_enforced :
    (stepBody fwBug epsilon 281 574 stBug 0).state.delta = [1/100 + epsilon] ∧
    ¬ (∀ x ∈ (stepBody fwBug epsilon 281 574 stBug 0).state.delta,
        -epsilon ≤ x ∧ x ≤ epsilon) := by
  have hclip : clipVal (-epsilon) epsilon ((100:ℚ)⁻¹) = epsilon := by
    rw [clipVal, max_def, min_def]
    norm_num [epsilon]
  have hdelta : (stepBody fwBug epsilon 281 574 stBug 0).state.delta = [1/100 + epsilon] := by
    show tensorAdd (List.map (fun _ => (1:ℚ)/100) [0])
        (clip_eps (List.map (fun _ => (1:ℚ)/100) [0]) epsilon) = [1/100 + epsilon]
    simp [tensorAdd, clip_eps, one_div, hclip]
  refine ⟨hdelta, fun h => ?_⟩
  have hx := h (1/100 + epsilon) (by rw [hdelta]; exact List.mem_singleton.mpr rfl)
  have hle : (1/100 + epsilon : ℚ) ≤ epsilon := hx.2
  rw [epsilon] at hle
  norm_num at hle

/-- Claim C2: at every step the combined loss equals the negated sparse
categorical cross-entropy of the model's predictions at the original class
index plus the positive one at the target class index. -/
theorem C2_totalLoss_formula (fw : Framework) (eps : ℚ)
    (original_class_index target_class_index : ℕ) (st : LoopState) (i : ℕ) :
    (stepBody fw eps original_class_index target_class_index st i).totalLoss =
      -(fw.scc original_class_index
          (fw.runModel st.weights false (fw.preInput (tensorAdd st.baseImage st.delta))))
      + fw.scc target_class_index
          (fw.runModel st.weights false (fw.preInput (tensorAdd st.baseImage st.delta))) := rfl

/-- Claim C5: for every step budget the optimizer executes exactly that
many iterations — whatever loss values the framework produces — and prints
the loss exactly at the step indices that are multiples of 10. -/
theorem C5_fixed_iterations_print_schedule (fw : Framework) (g : Globals)
    (model base_image delta : List ℚ)
    (original_class_index target_class_index steps : ℕ) :
    (generate_target_adversaries fw g model base_image delta
        original_class_index target_class_index steps).iterations = steps ∧
    (generate_target_adversaries fw g model base_image delta
        original_class_index target_class_index steps).printedSteps =
      (List.range steps).filter (fun i => i % 10 == 0) := by
  have h := loopFrom_stats fw g original_class_index target_class_index (List.range steps)
    { baseImage := g.baseImage, weights := model, adamSt := g.adam0, delta := delta }
  exact ⟨by rw [generate_target_adversaries, h.1, List.length_range],
         by rw [generate_target_adversaries, h.2]⟩

/-- Claim C8: the loop mutates only the perturbation (and the optimizer
moments): after any sequence of iterations the base image tensor and the
classifier weights are unchanged, each single step preserves them, and the
classifier is invoked with `training = False`. -/
theorem C8_only_delta_mutated (fw : Framework) (g : Globals)
    (original_class_index target_class_index : ℕ) (l : List ℕ) (st : LoopState)
    (eps : ℚ) (i : ℕ) :
    (loopFrom fw g original_class_index target_class_index l st).state.baseImage
        = st.baseImage ∧
    (loopFrom fw g original_class_index target_class_index l st).state.weights
        = st.weights ∧
    (stepBody fw eps original_class_index target_class_index st i).state.baseImage
        = st.baseImage ∧
    (stepBody fw eps original_class_index target_class_index st i).state.weights
        = st.weights ∧
    (stepBody fw eps original_class_index target_class_index st i).trainingMode = false := by
  have h := loopFrom_frame fw g original_class_index target_class_index l st
  exact ⟨h.1, h.2, rfl, rfl, rfl⟩

/-- Claim C9: the result of `generate_target_adversaries` is independent of
its `base_image` parameter — the loop body reads the module-level
`baseImage` global instead — so any two arguments give identical results
with all globals held fixed. -/
theorem C9_base_image_param_ignored (fw : Framework) (g : Globals)
    (model b1 b2 delta : List ℚ)
    (original_class_index target_class_index steps : ℕ) :
    generate_target_adversaries fw g model b1 delta
        original_class_index target_class_index steps =
      generate_target_adversaries fw g model b2 delta
        original_class_index target_class_index steps := rfl

/-- Characters that agree up to case or are both in the underscore/space
pair normalize identically. -/
lemma normChar_eq_of_equiv (c d : Char) (h : charEquivB c d = true) :
    normChar c = normChar d := by
  rw [charEquivB] at h
  simp only [Bool.or_eq_true, Bool.and_eq_true, beq_iff_eq] at h
  rcases h with h1 | ⟨hc, hd⟩
  · simp [normChar, h1]
  · rcases hc with hc1 | hc1 <;> rcases hd with hd1 | hd1 <;>
      subst hc1 <;> subst hd1 <;> decide

/-- Pointwise `charEquivB`-related character lists map to the same list
under `normChar`. -/
lemma map_normChar_eq : ∀ cs ds : List Char, labelEquivList cs ds = true →
    cs.map normChar = ds.map normChar
  | [], [], _ => rfl
  | [], _ :: _, h => by simp [labelEquivList] at h
  | _ :: _, [], h => by simp [labelEquivList] at h
  | c :: cs, d :: ds, h => by
    rw [labelEquivList] at h
    simp only [Bool.and_eq_true] at h
    obtain ⟨h1, h2⟩ := h
    rw [List.map_cons, List.map_cons, normChar_eq_of_equiv c d h1,
      map_normChar_eq cs ds h2]

/-- The relation `labelEquiv` is decidable, being a boolean test. -/
instance (s t : String) : Decidable (labelEquiv s t) :=
  inferInstanceAs (Decidable (labelEquivList s.data t.data = true))

/-- A key absent from an association list's key column looks up to `none`,
and a present key looks up to some value. -/
lemma lookup_none_iff_not_mem (k : String) : ∀ m : List (String × ℕ),
    m.lookup k = none ↔ k ∉ m.map Prod.fst
  | [] => by simp
  | (a, b) :: m => by
    by_cases hk : k = a
    · subst hk
      simp [List.lookup]
    · have hb : (k == a) = false := beq_false_of_ne hk
      simp [List.lookup, hb, hk, lookup_none_iff_not_mem k m]

/-- Claim C3: label resolution normalizes by lowercasing and turning
underscores into spaces, so any two labels that differ only in letter case
and/or underscore-versus-space resolve identically; the result is the
static map's value at the normalized key when present and `none` when
absent. -/
theorem C3_label_resolution_insensitive (mapping : List (String × ℕ)) (s t : String)
    (h : labelEquiv s t) :
    get_target_class_index mapping s = get_target_class_index mapping t ∧
    get_target_class_index mapping s = mapping.lookup (pyLowerReplace s) ∧
    (pyLowerReplace s ∉ mapping.map Prod.fst →
      get_target_class_index mapping s = none) ∧
    (pyLowerReplace s ∈ mapping.map Prod.fst →
      ∃ i, get_target_class_index mapping s = some i) := by
  have hnorm : pyLowerReplace s = pyLowerReplace t := by
    rw [pyLowerReplace, pyLowerReplace, map_normChar_eq s.data t.data h]
  refine ⟨?_, rfl, ?_, ?_⟩
  · rw [get_target_class_index, get_target_class_index, hnorm]
  · intro habs
    exact (lookup_none_iff_not_mem (pyLowerReplace s) mapping).mpr habs
  · intro hmem
    rcases ho : mapping.lookup (pyLowerReplace s) with _ | i
    · exact absurd ((lookup_none_iff_not_mem (pyLowerReplace s) mapping).mp ho) (by
        intro hcon
        exact hcon hmem)
    · exact ⟨i, ho⟩

/-- Witness for C3 at the spec's own example labels: with the mapping entry
for soccer ball at index 805, the variants resolve identically and to the
mapped index. -/
theorem C3_witness :
    get_target_class_index [("soccer ball", 805)] "Soccer_Ball" =
      get_target_class_index [("soccer ball", 805)] "SOCCER BALL" ∧
    get_target_class_index [("soccer ball", 805)] "Soccer_Ball" = some 805 := by
  have h := C3_label_resolution_insensitive [("soccer ball", 805)]
    "Soccer_Ball" "SOCCER BALL" (by decide)
  exact ⟨h.1, by decide⟩

/-- Claim C4: when the target class is absent from the label map, the
driver prints the error and exits with code 0, and no image loading,
preprocessing, model loading or optimization event occurs; when the target
class is present, no exit event occurs at all. -/
theorem C4_unknown_target_early_exit (mapping : List (String × ℕ))
    (target_class file_in : String) :
    (get_target_class_index mapping target_class = none →
      mainEvents mapping target_class file_in =
          [Ev.printErrorTargetMissing, Ev.exitWith 0] ∧
      Ev.loadInputImage file_in ∉ mainEvents mapping target_class file_in ∧
      Ev.runPreprocessImage ∉ mainEvents mapping target_class file_in ∧
      Ev.loadResNet50 ∉ mainEvents mapping target_class file_in ∧
      Ev.runOptimizer ∉ mainEvents mapping target_class file_in) ∧
    (get_target_class_index mapping target_class ≠ none →
      (∀ c : ℕ, Ev.exitWith c ∉ mainEvents mapping target_class file_in) ∧
      Ev.loadInputImage file_in ∈ mainEvents mapping target_class file_in) := by
  rcases hres : get_target_class_index mapping target_class with _ | i
  · refine ⟨fun _ => ?_, fun hne => absurd rfl hne⟩
    rw [mainEvents, hres]
    refine ⟨rfl, ?_, ?_, ?_, ?_⟩ <;> simp
  · refine ⟨fun hno => absurd hno (by simp), fun _ => ?_⟩
    rw [mainEvents, hres]
    exact ⟨fun c => by simp, by simp⟩

/-- Witness for C4 at concrete inputs: a mapping holding only golf ball;
the absent label tabby triggers the exit-0 trace, the present label
golf ball runs the pipeline with no exit event. -/
theorem C4_witness :
    mainEvents [("golf ball", 574)] "tabby" "pig.jpg" =
        [Ev.printErrorTargetMissing, Ev.exitWith 0] ∧
    (∀ c : ℕ, Ev.exitWith c ∉ mainEvents [("golf ball", 574)] "Golf_Ball" "pig.jpg") :=
  ⟨((C4_unknown_target_early_exit [("golf ball", 574)] "tabby" "pig.jpg").1
      (by decide)).1,
   ((C4_unknown_target_early_exit [("golf ball", 574)] "Golf_Ball" "pig.jpg").2
      (by decide)).1⟩

/-- A freshly decoded `cv2.imread` buffer: BGR channel order, some spatial
size, 3 channels, no batch dimension, not normalized. -/
def imgDecoded : ImgState :=
  { order := ChannelOrder.bgr, height := 480, width := 640
    channels := 3, batchDims := 0, normalized := false }

/-- Claim C6 counterexample: `preprocess_image` does not apply the
classifier's numeric normalization — on a freshly decoded buffer its output
is still unnormalized, so normalization is not part of the same
preprocessing function. -/
theorem C6_preprocess_image_not_normalizing :
    (preprocess_image imgDecoded).normalized ≠ true := by decide

/-- Claim C6 amended: `preprocess_image` converts BGR to RGB, resizes to
224 x 224 and adds a leading batch dimension, yielding shape
(1, 224, 224, 3) on a decoded 3-channel buffer, but leaves the
normalization status untouched; the driver applies the classifier's
numeric normalization afterwards through the separate function
`preprocess_input` (line 92). -/
theorem C6_preprocess_pipeline (img : ImgState)
    (hc : img.channels = 3) (hb : img.batchDims = 0) :
    (preprocess_image img).shape = [1, 224, 224, 3] ∧
    (preprocess_image img).order = ChannelOrder.rgb ∧
    (preprocess_image img).normalized = img.normalized ∧
    (preprocess_input_resnet (preprocess_image img)).normalized = true := by
  refine ⟨?_, rfl, rfl, rfl⟩
  rw [preprocess_image, expandDims0, cvResize, cvtColorBGR2RGB]
  simp [ImgState.shape, hc, hb]

/-- Witness for C6 amended at the concrete decoded buffer. -/
theorem C6_witness :
    (preprocess_image imgDecoded).shape = [1, 224, 224, 3] ∧
    (preprocess_image imgDecoded).order = ChannelOrder.rgb ∧
    (preprocess_image imgDecoded).normalized = imgDecoded.normalized ∧
    (preprocess_input_resnet (preprocess_image imgDecoded)).normalized = true :=
  C6_preprocess_pipeline imgDecoded rfl rfl

/-- The persisted pixel value is nonnegative. -/
lemma persistPixel_nonneg (x : ℚ) : 0 ≤ persistPixel x := by
  rw [persistPixel]
  have h0 : (0 : ℚ) ≤ clipVal 0 255 x :=
    le_min (by norm_num) (le_max_left 0 x)
  exact_mod_cast Int.floor_nonneg.mpr h0

/-- The persisted pixel value is at most 255. -/
lemma persistPixel_le (x : ℚ) : persistPixel x ≤ 255 := by
  rw [persistPixel]
  have h1 : clipVal 0 255 x ≤ 255 := min_le_left 255 (max 0 x)
  calc ((⌊clipVal 0 255 x⌋ : ℤ) : ℚ) ≤ clipVal 0 255 x := Int.floor_le _
    _ ≤ 255 := h1

/-- Claim C7: every element of the persisted adversarial image lies in
[0, 255] and is integer-valued (the `uint8` cast after `np.clip`). -/
theorem C7_persisted_pixels_valid (baseImage deltaUpdated : List ℚ) (x : ℚ)
    (hx : x ∈ adverImagePersisted baseImage deltaUpdated) :
    0 ≤ x ∧ x ≤ 255 ∧ ∃ n : ℤ, x = (n : ℚ) := by
  rw [adverImagePersisted] at hx
  obtain ⟨y, _, hy⟩ := List.mem_map.mp hx
  subst hy
  exact ⟨persistPixel_nonneg y, persistPixel_le y, ⟨⌊clipVal 0 255 y⌋, rfl⟩⟩

/-- Witness for C7: a raw pixel of 300 persists to 255, which is in range
and integral. -/
theorem C7_witness :
    (0 : ℚ) ≤ 255 ∧ (255 : ℚ) ≤ 255 ∧ ∃ n : ℤ, (255 : ℚ) = (n : ℚ) :=
  C7_persisted_pixels_valid [300] [0] 255 (by
    rw [adverImagePersisted, adverImageRaw]
    have h1 : tensorAdd [(300 : ℚ)] [0] = [300] := by
      rw [tensorAdd]
      norm_num
    rw [h1]
    have h2 : persistPixel 300 = 255 := by
      rw [persistPixel, clipVal]
      rw [max_def, min_def]
      norm_num
    rw [List.map_cons, List.map_nil, h2]
    exact List.mem_singleton.mpr rfl)

/-- Claim C10: the tensor handed back to the classifiers after
optimization is built from the raw unclipped `baseImage + deltaUpdated`
(lines 129 and 145), not from the clipped integer image written to
`output.png`; whenever some element of the raw sum is negative, exceeds
255, or is non-integer, the classified tensor differs from the persisted
image. -/
theorem C10_reclassified_tensor_unclipped (fw : Framework)
    (baseImage deltaUpdated : List ℚ)
    (h : ∃ x ∈ adverImageRaw baseImage deltaUpdated,
      x < 0 ∨ 255 < x ∨ ∀ n : ℤ, x ≠ (n : ℚ)) :
    reclassifyInput fw baseImage deltaUpdated =
        fw.preInput (adverImageRaw baseImage deltaUpdated) ∧
    adverImageRaw baseImage deltaUpdated ≠
        adverImagePersisted baseImage deltaUpdated := by
  refine ⟨rfl, fun heq => ?_⟩
  obtain ⟨x, hx, hbad⟩ := h
  have hx2 : x ∈ adverImagePersisted baseImage deltaUpdated := heq ▸ hx
  rw [adverImagePersisted] at hx2
  obtain ⟨y, _, hy⟩ := List.mem_map.mp hx2
  rcases hbad with h1 | h1 | h1
  · exact absurd (hy ▸ persistPixel_nonneg y) (not_le.mpr h1)
  · exact absurd (hy ▸ persistPixel_le y) (not_le.mpr h1)
  · exact h1 ⌊clipVal 0 255 y⌋ (by rw [← hy]; rfl)

/-- Witness for C10: with a raw adversarial pixel of 256 (above the display
range), the classified tensor and the persisted image differ. -/
theorem C10_witness :
    reclassifyInput fwBug [256] [0] = fwBug.preInput (adverImageRaw [256] [0]) ∧
    adverImageRaw [256] [0] ≠ adverImagePersisted [256] [0] :=
  C10_reclassified_tensor_unclipped fwBug [256] [0] (by
    refine ⟨256, ?_, Or.inr (Or.inl (by norm_num))⟩
    have h1 : adverImageRaw [(256 : ℚ)] [0] = [256] := by
      rw [adverImageRaw, tensorAdd]
      norm_num
    rw [h1]
    exact List.mem_singleton.mpr rfl)

end AdvExample
